import Mathlib

/-!
Shallow embedding of the execution / status-propagation core of the
`linux_setup_ur` repository (src/src/...), together with proofs about its
lifecycle claims.

Conventions of the embedding:
* External capabilities (process spawning, filesystem probes, stdin prompts,
  host-distribution identification) are collected in a `World` record of
  oracle functions; the embedded functions are pure and take the world as an
  argument.
* Observable side effects (shell-invoker calls, lifecycle entries, directory
  creation, environment prompting) are recorded as an `Event` trace returned
  alongside each status — the "spy/counter" the specification's testable
  properties ask for.
* The `RefCell<Status>` cell of `CommandStruct` is not modelled as mutable
  state: every return path of the source writes the cell before returning the
  same value, so the returned `Status` is the cell's resting value.
-/

namespace LinuxSetup

/-- Status enum from src/src/utils/status.rs. -/
inductive Status
  | Running
  | Success
  | Warning
  | Failure
  | Normal
  | Skipped
  | Passed
deriving DecidableEq, Repr

/-- DistributionType from src/src/distribution/linux_distributor.rs. -/
inductive DistributionType
  | Ubuntu
  | ArchLinux
  | Unknown
deriving DecidableEq, Repr

/-- Shell enum from src/src/command/shell.rs. -/
inductive Shell
  | Bash
  | Zsh
  | Sh
  | Custom (name : String)
deriving DecidableEq, Repr

/-- Display impl of Shell (src/src/command/shell.rs). -/
def Shell.name : Shell → String
  | .Bash => "bash"
  | .Zsh => "zsh"
  | .Sh => "sh"
  | .Custom s => s

/-- Captured output of a finished child process (std::process::Output):
`exitCode = none` models termination by signal (ExitStatus::code() = None). -/
structure ProcOutput where
  exitCode : Option Nat
  stdout : String
  stderr : String
deriving DecidableEq, Repr

/-- ExitStatus::success(): exit code 0. -/
def ProcOutput.success (o : ProcOutput) : Bool :=
  o.exitCode == some 0

/-- Outcome of spawn-and-wait (interactive mode): either Command::spawn errs,
or child.wait() errs, or the child exits with an optional code. -/
inductive SpawnOutcome
  | spawnError
  | waitError
  | exited (code : Option Nat)
deriving DecidableEq, Repr

/-- The world of external capabilities. `capture s l` is `none` when
`.output()` returns an io error (spawn failure); otherwise the process
output. -/
structure World where
  host : DistributionType
  capture : String → String → Option ProcOutput
  attach : String → String → SpawnOutcome
  dirExists : String → Bool
  createDirOk : String → Bool
  envVar : String → Option String
  promptValue : String → Option String
  promptConfirm : String → Option String

/-- Observable events of a lifecycle execution (the spy/counter). -/
inductive Event
  | captured (shell line : String)
  | attached (shell line : String)
  | runEnter (line : String)
  | interactEnter (line : String)
  | applyEnter (line : String)
  | createDir (dir : String)
  | promptEnv (var : String)
deriving DecidableEq, Repr

/-- Event is a Shell Invoker call (a process spawn attempt). -/
def Event.isInvokerCall : Event → Bool
  | .captured _ _ => true
  | .attached _ _ => true
  | _ => false

def Event.isRunEnter : Event → Bool
  | .runEnter _ => true
  | _ => false

def Event.isApplyEnter : Event → Bool
  | .applyEnter _ => true
  | _ => false

def Event.isInteractEnter : Event → Bool
  | .interactEnter _ => true
  | _ => false

def Event.isAttachedCall : Event → Bool
  | .attached _ _ => true
  | _ => false

/-- Event belongs to the precondition phase (directory creation or
environment-variable prompting). -/
def Event.isPrecondition : Event → Bool
  | .createDir _ => true
  | .promptEnv _ => true
  | _ => false

/-! ## Command Unit (src/src/command/command_struct.rs) -/

/-- CommandStruct fields (the serde-skipped RefCell status cell is threaded
as the returned Status, see the file header). -/
structure CommandStruct where
  command : String
  shell : Option Shell
  distribution : Option DistributionType
deriving DecidableEq, Repr

/-- `self.shell.as_ref().unwrap_or(&Shell::Sh).to_string()`. -/
def CommandStruct.shellName (c : CommandStruct) : String :=
  (c.shell.getD Shell.Sh).name

/-- CommandStruct::should_skip: a present distribution restriction that
differs from the identified host distribution means skip. -/
def CommandStruct.should_skip (c : CommandStruct) (host : DistributionType) : Bool :=
  match c.distribution with
  | some d => d != host
  | none => false

/-- Error classification of execute_command (io error from run_command, or
handle_command_error on a failed process). -/
inductive CmdError
  | ioError
  | notFound
  | executionFailed
deriving DecidableEq, Repr

def COMMAND_NOT_FOUND : String := "Command not found"

/-- `haystack.contains(needle)` on strings, as character-list search. -/
def containsSubstring (hay needle : String) : Bool :=
  (List.range (hay.length + 1)).any (fun i => needle.data.isPrefixOf (hay.data.drop i))

/-- CommandStruct::handle_command_error. -/
def handle_command_error (stderr : String) : CmdError :=
  if containsSubstring stderr COMMAND_NOT_FOUND then CmdError.notFound
  else CmdError.executionFailed

/-- Result of execute_command: the Rust Result, the value written to the
status cell (none = cell untouched, as in the io-error early return), and the
event trace. -/
structure ExecOutcome where
  result : Except CmdError String
  cellStatus : Option Status
  events : List Event
deriving Repr

/-- CommandStruct::execute_command. -/
def CommandStruct.execute_command (c : CommandStruct) (w : World) : ExecOutcome :=
  if c.should_skip w.host then
    ⟨Except.ok "Skipped", some Status.Skipped, []⟩
  else
    match w.capture c.shellName c.command with
    | none =>
      ⟨Except.error CmdError.ioError, none, [Event.captured c.shellName c.command]⟩
    | some output =>
      if output.success then
        ⟨Except.ok output.stdout.trim, some Status.Success,
          [Event.captured c.shellName c.command]⟩
      else
        ⟨Except.error (handle_command_error output.stderr), some Status.Failure,
          [Event.captured c.shellName c.command]⟩

/-- CommandRunner::run for CommandStruct: Ok returns the cell's value (fresh
cells start at the serde default Normal), Err sets and returns Failure. -/
def CommandStruct.run (c : CommandStruct) (w : World) : Status × List Event :=
  let r := c.execute_command w
  match r.result with
  | Except.ok _ => (r.cellStatus.getD Status.Normal, Event.runEnter c.command :: r.events)
  | Except.error _ => (Status.Failure, Event.runEnter c.command :: r.events)

/-- CommandStruct::handle_status on ExitStatus::code(). -/
def handle_status : Option Nat → Status
  | some 0 => Status.Success
  | some _ => Status.Failure
  | none => Status.Failure

/-- CommandStruct::interact_mode. -/
def CommandStruct.interact_mode (c : CommandStruct) (w : World) : Status × List Event :=
  if c.should_skip w.host then
    (Status.Skipped, [Event.interactEnter c.command])
  else
    match w.attach c.shellName c.command with
    | SpawnOutcome.spawnError =>
      (Status.Failure, [Event.interactEnter c.command, Event.attached c.shellName c.command])
    | SpawnOutcome.waitError =>
      (Status.Failure, [Event.interactEnter c.command, Event.attached c.shellName c.command])
    | SpawnOutcome.exited code =>
      (handle_status code, [Event.interactEnter c.command, Event.attached c.shellName c.command])

/-- CommandStruct::validate_command: a probe run on the interpreter `sh`,
returning Err on spawn io error, else whether the probe succeeded and the
predicate holds of its output. -/
def validate_command (w : World) (command : String) (check : ProcOutput → Bool) :
    Except Unit Bool × List Event :=
  match w.capture "sh" command with
  | none => (Except.error (), [Event.captured "sh" command])
  | some output => (Except.ok (output.success && check output), [Event.captured "sh" command])

/-! ## Configuration Unit (src/src/config/config_item.rs) -/

structure ConfigItem where
  check : Option String
  command : CommandStruct
deriving DecidableEq, Repr

/-- Configurator::apply for ConfigItem. -/
def ConfigItem.apply (ci : ConfigItem) (w : World) : Status × List Event :=
  match ci.check with
  | some chk =>
    match validate_command w chk (fun o => !o.stdout.isEmpty) with
    | (Except.ok true, tr) => (Status.Success, Event.applyEnter ci.command.command :: tr)
    | (Except.ok false, tr) =>
      let r := ci.command.interact_mode w
      (r.1, Event.applyEnter ci.command.command :: (tr ++ r.2))
    | (Except.error _, tr) => (Status.Failure, Event.applyEnter ci.command.command :: tr)
  | none =>
    let r := ci.command.interact_mode w
    (r.1, Event.applyEnter ci.command.command :: r.2)

/-! ## Setup Entry (src/src/setup/setup_entry.rs) -/

/-- SetupItem (precondition block): env var names and optional working dir. -/
structure SetupItem where
  env_vars : Option (List String)
  working_dir : Option String
deriving DecidableEq, Repr

/-- SetupItem::ensure_working_dir: create the dir (recursively) when absent;
io error propagates. -/
def SetupItem.ensure_working_dir (s : SetupItem) (w : World) :
    Except Unit Unit × List Event :=
  match s.working_dir with
  | some dir =>
    if !(w.dirExists dir) then
      if w.createDirOk dir then (Except.ok (), [Event.createDir dir])
      else (Except.error (), [Event.createDir dir])
    else (Except.ok (), [])
  | none => (Except.ok (), [])

/-- Loop body of SetupItem::ensure_env_vars: for each unset variable, prompt
for a value and a confirmation; a stdin/stdout io error aborts with Err; a
confirmed value is set in the process environment (modelled as an overlay
consulted before the world's env). -/
def ensure_env_vars_go (w : World) (overlay : List (String × String)) :
    List String → Except Unit Unit × List Event
  | [] => (Except.ok (), [])
  | v :: rest =>
    match (overlay.lookup v).orElse (fun _ => w.envVar v) with
    | some _ => ensure_env_vars_go w overlay rest
    | none =>
      match w.promptValue v with
      | none => (Except.error (), [Event.promptEnv v])
      | some input =>
        match w.promptConfirm v with
        | none => (Except.error (), [Event.promptEnv v])
        | some confirm =>
          if confirm.trim.toLower == "y" then
            let r := ensure_env_vars_go w ((v, input.trim) :: overlay) rest
            (r.1, Event.promptEnv v :: r.2)
          else
            let r := ensure_env_vars_go w overlay rest
            (r.1, Event.promptEnv v :: r.2)

/-- SetupItem::ensure_env_vars. -/
def SetupItem.ensure_env_vars (s : SetupItem) (w : World) : Except Unit Unit × List Event :=
  match s.env_vars with
  | some vars => ensure_env_vars_go w [] vars
  | none => (Except.ok (), [])

/-- SetupEntry fields; the source's `setup` field is called `setup_item` here
because the `setup()` lifecycle method also lives in the `SetupEntry`
namespace. -/
structure SetupEntry where
  check : Option String
  commands : List CommandStruct
  configs : Option (List ConfigItem)
  setup_item : Option SetupItem
  description : String

/-- SetupEntry::run_commands: run every command (the iterator's count()
consumes all elements), aggregate Failure when at least one child failed. -/
def SetupEntry.run_commands (e : SetupEntry) (w : World) : Status × List Event :=
  let results := e.commands.map (fun c => c.run w)
  let failed := (results.filter (fun r => r.1 == Status.Failure)).length
  (if failed > 0 then Status.Failure else Status.Success, (results.map Prod.snd).flatten)

/-- SetupEntry::run_configs: apply every config, aggregate like
run_commands; with no config list the aggregate is Success. -/
def SetupEntry.run_configs (e : SetupEntry) (w : World) : Status × List Event :=
  match e.configs with
  | some configs =>
    let results := configs.map (fun ci => ci.apply w)
    let failed := (results.filter (fun r => r.1 == Status.Failure)).length
    (if failed > 0 then Status.Failure else Status.Success, (results.map Prod.snd).flatten)
  | none => (Status.Success, [])

/-- The entry-level idempotency guard of SetupEntry::run: present check whose
sh-probe returns Ok true (exit 0 and non-empty stdout). Err results are
ignored, leaving the status Running. -/
def SetupEntry.guardSatisfied (e : SetupEntry) (w : World) : Bool :=
  match e.check with
  | some chk =>
    match validate_command w chk (fun o => !o.stdout.isEmpty) with
    | (Except.ok true, _) => true
    | _ => false
  | none => false

/-- Events of the entry's own check probe. -/
def SetupEntry.checkEvents (e : SetupEntry) (w : World) : List Event :=
  match e.check with
  | some chk => (validate_command w chk (fun o => !o.stdout.isEmpty)).2
  | none => []

/-- CommandRunner::run for SetupEntry: guard check, then command phase unless
the guard set Success, then config phase unless the status is Failure. -/
def SetupEntry.run (e : SetupEntry) (w : World) : Status × List Event :=
  let process0 : Status := if e.guardSatisfied w then Status.Success else Status.Running
  let step1 : Status × List Event :=
    if process0 ≠ Status.Success then e.run_commands w else (process0, [])
  let step2 : Status × List Event :=
    if e.configs.isSome ∧ step1.1 ≠ Status.Failure then e.run_configs w else (step1.1, [])
  (step2.1, e.checkEvents w ++ step1.2 ++ step2.2)

/-- SetupEntry::remove_command on the command list: Vec::remove(index). -/
def remove_command (cmds : List CommandStruct) (i : Nat) : List CommandStruct :=
  cmds.eraseIdx i

/-- First loop of SetupEntry::clear_commands: `enumerate()` positions of the
commands whose guard says skip, collected in increasing order (the counter
argument is the enumeration index). -/
def commandsToRemoveFrom (host : DistributionType) : Nat → List CommandStruct → List Nat
  | _, [] => []
  | i, c :: rest =>
    if c.should_skip host then i :: commandsToRemoveFrom host (i + 1) rest
    else commandsToRemoveFrom host (i + 1) rest

def commandsToRemove (cmds : List CommandStruct) (host : DistributionType) : List Nat :=
  commandsToRemoveFrom host 0 cmds

/-- SetupEntry::clear_commands: remove the collected indices in reverse
order, each via remove_command. -/
def clear_commands (cmds : List CommandStruct) (host : DistributionType) : List CommandStruct :=
  (commandsToRemove cmds host).reverse.foldl (fun acc i => remove_command acc i) cmds

/-- ExecutableSetup::setup for SetupEntry: prune, ensure working dir, ensure
env vars (either io error short-circuits to Failure), then run. -/
def SetupEntry.setup (e : SetupEntry) (w : World) : Status × List Event :=
  let pruned : SetupEntry := { e with commands := clear_commands e.commands w.host }
  match e.setup_item with
  | some s =>
    match s.ensure_working_dir w with
    | (Except.error _, evs) => (Status.Failure, evs)
    | (Except.ok _, evs1) =>
      match s.ensure_env_vars w with
      | (Except.error _, evs2) => (Status.Failure, evs1 ++ evs2)
      | (Except.ok _, evs2) =>
        let r := pruned.run w
        (r.1, evs1 ++ evs2 ++ r.2)
  | none => pruned.run w

/-! ## Setup Registry (src/src/setup/setup_registry.rs) -/

structure SetupRegistry where
  entries : List SetupEntry

/-- SetupRegistry::execute: for each entry in list order, call the entry's
run(); the per-entry statuses are discarded (the Rust function returns unit),
so the observable result is the event trace alone. -/
def SetupRegistry.execute (r : SetupRegistry) (w : World) : List Event :=
  (r.entries.map (fun e => (e.run w).2)).flatten

/-- Modelled from the spec: §4.6 says `execute()` "runs every entry's full
lifecycle (§4.5)", i.e. each entry's three-phase `setup()` (precondition,
pruning, then guard/command/config phases). The source's execute calls only
`run()`; this definition follows the spec's words for comparison. -/
def SetupRegistry.executeLifecycle (r : SetupRegistry) (w : World) : List Event :=
  (r.entries.map (fun e => (e.setup w).2)).flatten

/-! ## Command Unit with idempotency check -/

/-- Modelled from the spec: the canonical CommandStruct in
src/src/command/command_struct.rs carries no idempotency-check field; the
spec's Command Unit attribute "idempotency check command (optional)" (§3) and
its run() behaviour (§4.3) — probe on the interpreter `sh`, satisfied when
the exit code is 0 and stdout is non-empty, in which case the resting status
is Passed and the payload is not executed, otherwise the payload runs — are
modelled here over the source's CommandStruct and validate_command, in the
before-hook shape of ProcessRunner (src/src/traits/command_runner.rs). -/
structure CheckedCommand where
  base : CommandStruct
  check : String

/-- Modelled from the spec: the probe is satisfied when it exits 0 with
non-empty stdout (§4.3). -/
def CheckedCommand.probeSatisfied (cc : CheckedCommand) (w : World) : Bool :=
  match w.capture "sh" cc.check with
  | some o => o.success && !o.stdout.isEmpty
  | none => false

/-- Modelled from the spec: run() of a Command Unit with an idempotency check
(§4.3): evaluate the check via the sh probe; if satisfied rest at Passed
without executing the payload, otherwise execute the payload command line. -/
def CheckedCommand.run (cc : CheckedCommand) (w : World) : Status × List Event :=
  match validate_command w cc.check (fun o => !o.stdout.isEmpty) with
  | (Except.ok true, tr) => (Status.Passed, tr)
  | (_, tr) =>
    let r := cc.base.run w
    (r.1, tr ++ r.2)



/-! ## Concrete sample worlds and units -/

/-- A world where the probe line "chk" succeeds with non-empty stdout, every
other captured line succeeds with empty stdout, and every attached run exits
with code 1. -/
def sampleWorldGuardOk : World where
  host := DistributionType.Ubuntu
  capture := fun _ line =>
    if line = "chk" then some ⟨some 0, "yes", ""⟩ else some ⟨some 0, "", ""⟩
  attach := fun _ _ => SpawnOutcome.exited (some 1)
  dirExists := fun _ => false
  createDirOk := fun _ => true
  envVar := fun _ => some "v"
  promptValue := fun _ => some "x"
  promptConfirm := fun _ => some "y"

/-- Entry with a satisfied guard check and one configuration item whose
interactive run fails. -/
def sampleEntryGuardedCfg : SetupEntry where
  check := some "chk"
  commands := []
  configs := some [⟨none, ⟨"cfgcmd", none, none⟩⟩]
  setup_item := none
  description := "guarded-with-config"

/-- A world on an Arch Linux host where the command line "bad" exits 1 and
every other captured or attached line succeeds, and the probe line "nochk"
fails to spawn. -/
def sampleWorldArch : World where
  host := DistributionType.ArchLinux
  capture := fun _ line =>
    if line = "bad" then some ⟨some 1, "", "boom"⟩
    else if line = "nochk" then none
    else some ⟨some 0, "", ""⟩
  attach := fun _ _ => SpawnOutcome.exited (some 0)
  dirExists := fun _ => false
  createDirOk := fun _ => true
  envVar := fun _ => some "v"
  promptValue := fun _ => some "x"
  promptConfirm := fun _ => some "y"

/-- Entry with one Ubuntu-restricted command and a working-directory
precondition, for comparing execute() with the full lifecycle. -/
def samplePruneEntry : SetupEntry where
  check := none
  commands := [⟨"cmd-a", none, some DistributionType.Ubuntu⟩]
  configs := none
  setup_item := some ⟨none, some "wd"⟩
  description := "prune-me"

def sampleRegistry : SetupRegistry where
  entries := [samplePruneEntry]

/-- Entry with two commands, the first failing and the second succeeding. -/
def sampleFailEntry : SetupEntry where
  check := none
  commands := [⟨"bad", none, none⟩, ⟨"echo ok", none, none⟩]
  configs := none
  setup_item := none
  description := "two-commands"

/-- Entry whose single command fails and which carries a config list. -/
def sampleFailCfgEntry : SetupEntry where
  check := none
  commands := [⟨"bad", none, none⟩]
  configs := some [⟨none, ⟨"cfgcmd", none, none⟩⟩]
  setup_item := none
  description := "fail-then-config"

/-- A Command Unit with an idempotency check, in the satisfied sample world. -/
def sampleCheckedCommand : CheckedCommand where
  base := ⟨"pay", none, none⟩
  check := "chk"

/-- A Command Unit restricted to Ubuntu. -/
def sampleUbuntuCommand : CommandStruct where
  command := "ubuntu-only"
  shell := none
  distribution := some DistributionType.Ubuntu

/-- A Configuration Unit whose check probe fails to spawn in
sampleWorldArch. -/
def sampleCfgProbeErr : ConfigItem where
  check := some "nochk"
  command := ⟨"pay", none, none⟩

/-! ## Helper lemmas -/

theorem any_map_hetero {α β : Type} (l : List α) (f : α → β) (p : β → Bool) :
    (l.map f).any p = l.any (fun a => p (f a)) := by
  induction l with
  | nil => rfl
  | cons a t ih => simp [List.any_cons, ih]

theorem length_filter_pos_iff_any {α : Type} (l : List α) (p : α → Bool) :
    0 < (l.filter p).length ↔ l.any p = true := by
  induction l with
  | nil => simp
  | cons a t ih => by_cases h : p a <;> simp [List.filter_cons, h, ih]

/-- The four possible outcomes of execute_command. -/
theorem execute_command_cases (c : CommandStruct) (w : World) :
    c.execute_command w = ⟨Except.ok "Skipped", some Status.Skipped, []⟩ ∨
    (c.execute_command w = ⟨Except.error CmdError.ioError, none,
        [Event.captured c.shellName c.command]⟩) ∨
    (∃ s, c.execute_command w = ⟨Except.ok s, some Status.Success,
        [Event.captured c.shellName c.command]⟩) ∨
    (∃ err, c.execute_command w = ⟨Except.error err, some Status.Failure,
        [Event.captured c.shellName c.command]⟩) := by
  unfold CommandStruct.execute_command
  split
  · exact Or.inl rfl
  · split
    · exact Or.inr (Or.inl rfl)
    · split
      · exact Or.inr (Or.inr (Or.inl ⟨_, rfl⟩))
      · exact Or.inr (Or.inr (Or.inr ⟨_, rfl⟩))

/-- run() prepends its entry marker to the events of execute_command. -/
theorem run_events (c : CommandStruct) (w : World) :
    (c.run w).2 = Event.runEnter c.command :: (c.execute_command w).events := by
  unfold CommandStruct.run
  rcases execute_command_cases c w with h | h | ⟨s, h⟩ | ⟨err, h⟩ <;> rw [h]

/-- The resting status of run() is Skipped, Success or Failure. -/
theorem run_status_cases (c : CommandStruct) (w : World) :
    (c.run w).1 = Status.Skipped ∨ (c.run w).1 = Status.Success ∨
      (c.run w).1 = Status.Failure := by
  unfold CommandStruct.run
  rcases execute_command_cases c w with h | h | ⟨s, h⟩ | ⟨err, h⟩ <;> rw [h] <;> simp

/-- run() emits its marker and at most one invoker capture. -/
theorem run_trace_cases (c : CommandStruct) (w : World) :
    (c.run w).2 = [Event.runEnter c.command] ∨
      (c.run w).2 = [Event.runEnter c.command, Event.captured c.shellName c.command] := by
  rw [run_events]
  rcases execute_command_cases c w with h | h | ⟨s, h⟩ | ⟨err, h⟩ <;> rw [h] <;> simp

theorem run_filter_runEnter (c : CommandStruct) (w : World) :
    (c.run w).2.filter Event.isRunEnter = [Event.runEnter c.command] := by
  rcases run_trace_cases c w with h | h <;> rw [h] <;> rfl

theorem run_no_apply_events (c : CommandStruct) (w : World) :
    ∀ ev ∈ (c.run w).2, ev.isApplyEnter = false ∧ ev.isInteractEnter = false ∧
      ev.isPrecondition = false := by
  rcases run_trace_cases c w with h | h <;> rw [h] <;> intro ev hev <;>
    simp at hev
  · subst hev; exact ⟨rfl, rfl, rfl⟩
  · rcases hev with hev | hev <;> subst hev <;> exact ⟨rfl, rfl, rfl⟩

/-- handle_status never yields Running. -/
theorem handle_status_ne_running (code : Option Nat) : handle_status code ≠ Status.Running := by
  unfold handle_status
  split <;> simp

theorem interact_status_ne_running (c : CommandStruct) (w : World) :
    (c.interact_mode w).1 ≠ Status.Running := by
  unfold CommandStruct.interact_mode
  split
  · simp
  · split <;> simp [handle_status_ne_running]

theorem interact_trace_cases (c : CommandStruct) (w : World) :
    (c.interact_mode w).2 = [Event.interactEnter c.command] ∨
      (c.interact_mode w).2 =
        [Event.interactEnter c.command, Event.attached c.shellName c.command] := by
  unfold CommandStruct.interact_mode
  split
  · exact Or.inl rfl
  · split <;> exact Or.inr rfl

theorem interact_no_other_events (c : CommandStruct) (w : World) :
    ∀ ev ∈ (c.interact_mode w).2, ev.isRunEnter = false ∧ ev.isApplyEnter = false ∧
      ev.isPrecondition = false := by
  rcases interact_trace_cases c w with h | h <;> rw [h] <;> intro ev hev <;> simp at hev
  · subst hev; exact ⟨rfl, rfl, rfl⟩
  · rcases hev with hev | hev <;> subst hev <;> exact ⟨rfl, rfl, rfl⟩

theorem validate_events (w : World) (cmd : String) (check : ProcOutput → Bool) :
    (validate_command w cmd check).2 = [Event.captured "sh" cmd] := by
  unfold validate_command
  split <;> rfl

theorem apply_status_ne_running (ci : ConfigItem) (w : World) :
    (ci.apply w).1 ≠ Status.Running := by
  unfold ConfigItem.apply
  split
  · split
    · simp
    · simpa using interact_status_ne_running ci.command w
    · simp
  · simpa using interact_status_ne_running ci.command w

theorem apply_trace_shape (ci : ConfigItem) (w : World) :
    (∃ chk, ci.check = some chk ∧
      ((ci.apply w).2 = [Event.applyEnter ci.command.command, Event.captured "sh" chk] ∨
       (ci.apply w).2 = Event.applyEnter ci.command.command :: Event.captured "sh" chk ::
         (ci.command.interact_mode w).2)) ∨
    (ci.check = none ∧
      (ci.apply w).2 = Event.applyEnter ci.command.command :: (ci.command.interact_mode w).2) := by
  unfold ConfigItem.apply
  split
  · rename_i chk hchk
    refine Or.inl ⟨chk, hchk, ?_⟩
    split
    · rename_i tr heq
      have htr := validate_events w chk (fun o => !o.stdout.isEmpty)
      rw [heq] at htr
      simp only at htr
      subst htr
      exact Or.inl rfl
    · rename_i tr heq
      have htr := validate_events w chk (fun o => !o.stdout.isEmpty)
      rw [heq] at htr
      simp only at htr
      subst htr
      exact Or.inr rfl
    · rename_i e tr heq
      have htr := validate_events w chk (fun o => !o.stdout.isEmpty)
      rw [heq] at htr
      simp only at htr
      subst htr
      exact Or.inl rfl
  · rename_i hchk
    exact Or.inr ⟨hchk, rfl⟩

theorem apply_no_other_events (ci : ConfigItem) (w : World) :
    ∀ ev ∈ (ci.apply w).2, ev.isRunEnter = false ∧ ev.isPrecondition = false := by
  have hint := interact_no_other_events ci.command w
  rcases apply_trace_shape ci w with ⟨chk, _, h | h⟩ | ⟨_, h⟩ <;> rw [h] <;> intro ev hev
  · simp at hev
    rcases hev with hev | hev <;> subst hev <;> exact ⟨rfl, rfl⟩
  · simp at hev
    rcases hev with hev | hev | hev
    · subst hev; exact ⟨rfl, rfl⟩
    · subst hev; exact ⟨rfl, rfl⟩
    · exact ⟨(hint ev hev).1, (hint ev hev).2.2⟩
  · simp at hev
    rcases hev with hev | hev
    · subst hev; exact ⟨rfl, rfl⟩
    · exact ⟨(hint ev hev).1, (hint ev hev).2.2⟩


theorem run_commands_trace (e : SetupEntry) (w : World) :
    (e.run_commands w).2 = (e.commands.map (fun c => (c.run w).2)).flatten := by
  simp only [SetupEntry.run_commands, List.map_map]
  rfl

theorem run_commands_status (e : SetupEntry) (w : World) :
    (e.run_commands w).1 =
      if e.commands.any (fun c => (c.run w).1 == Status.Failure) then Status.Failure
      else Status.Success := by
  simp only [SetupEntry.run_commands]
  refine if_congr ?_ rfl rfl
  rw [gt_iff_lt, length_filter_pos_iff_any, any_map_hetero]

theorem run_commands_status_cases (e : SetupEntry) (w : World) :
    (e.run_commands w).1 = Status.Failure ∨ (e.run_commands w).1 = Status.Success := by
  rw [run_commands_status]
  split
  · exact Or.inl rfl
  · exact Or.inr rfl

theorem run_commands_filter_runEnter (e : SetupEntry) (w : World) :
    (e.run_commands w).2.filter Event.isRunEnter =
      e.commands.map (fun c => Event.runEnter c.command) := by
  rw [run_commands_trace]
  induction e.commands with
  | nil => rfl
  | cons c t ih => simp only [List.map_cons, List.flatten_cons, List.filter_append,
      run_filter_runEnter, ih, List.cons_append, List.nil_append]

theorem run_commands_no_other_events (e : SetupEntry) (w : World) :
    ∀ ev ∈ (e.run_commands w).2, ev.isApplyEnter = false ∧ ev.isInteractEnter = false ∧
      ev.isPrecondition = false := by
  rw [run_commands_trace]
  intro ev hev
  rw [List.mem_flatten] at hev
  rcases hev with ⟨l, hl, hev⟩
  rw [List.mem_map] at hl
  rcases hl with ⟨c, _, rfl⟩
  exact run_no_apply_events c w ev hev

theorem run_configs_status_cases (e : SetupEntry) (w : World) :
    (e.run_configs w).1 = Status.Failure ∨ (e.run_configs w).1 = Status.Success := by
  simp only [SetupEntry.run_configs]
  split
  · split
    · exact Or.inl rfl
    · exact Or.inr rfl
  · exact Or.inr rfl

theorem run_configs_no_other_events (e : SetupEntry) (w : World) :
    ∀ ev ∈ (e.run_configs w).2, ev.isRunEnter = false ∧ ev.isPrecondition = false := by
  simp only [SetupEntry.run_configs]
  split
  · rename_i configs hcfg
    simp only []
    intro ev hev
    rw [List.mem_flatten] at hev
    rcases hev with ⟨l, hl, hev⟩
    rw [List.map_map, List.mem_map] at hl
    rcases hl with ⟨ci, _, rfl⟩
    exact apply_no_other_events ci w ev hev
  · intro ev hev
    simp at hev

theorem checkEvents_shape (e : SetupEntry) (w : World) :
    e.checkEvents w = [] ∨ ∃ chk, e.check = some chk ∧
      e.checkEvents w = [Event.captured "sh" chk] := by
  unfold SetupEntry.checkEvents
  split
  · rename_i chk hchk
    exact Or.inr ⟨chk, hchk, validate_events w chk _⟩
  · exact Or.inl rfl

theorem checkEvents_no_other_events (e : SetupEntry) (w : World) :
    ∀ ev ∈ e.checkEvents w, ev.isRunEnter = false ∧ ev.isApplyEnter = false ∧
      ev.isPrecondition = false := by
  rcases checkEvents_shape e w with h | ⟨chk, _, h⟩ <;> rw [h] <;> intro ev hev <;> simp at hev
  subst hev
  exact ⟨rfl, rfl, rfl⟩

/-- Unfolding of SetupEntry::run when the guard is satisfied and a config
list is present. -/
theorem entry_run_guard_true_configs (e : SetupEntry) (w : World)
    (h : e.guardSatisfied w = true) (hc : e.configs.isSome = true) :
    e.run w = ((e.run_configs w).1, e.checkEvents w ++ (e.run_configs w).2) := by
  simp [SetupEntry.run, h, hc]

/-- Unfolding of SetupEntry::run when the guard is satisfied and no config
list is present. -/
theorem entry_run_guard_true_noconfigs (e : SetupEntry) (w : World)
    (h : e.guardSatisfied w = true) (hc : e.configs = none) :
    e.run w = (Status.Success, e.checkEvents w) := by
  simp [SetupEntry.run, h, hc]

/-- Unfolding of SetupEntry::run when the guard is not satisfied and the
command phase fails: the config phase is not entered. -/
theorem entry_run_guard_false_cmdfail (e : SetupEntry) (w : World)
    (h : e.guardSatisfied w = false) (hf : (e.run_commands w).1 = Status.Failure) :
    e.run w = (Status.Failure, e.checkEvents w ++ (e.run_commands w).2) := by
  simp [SetupEntry.run, h, hf]

/-- Unfolding of SetupEntry::run when the guard is not satisfied and the
command phase does not fail, with a config list present. -/
theorem entry_run_guard_false_cmdok_configs (e : SetupEntry) (w : World)
    (h : e.guardSatisfied w = false) (hf : (e.run_commands w).1 ≠ Status.Failure)
    (hc : e.configs.isSome = true) :
    e.run w = ((e.run_configs w).1,
      e.checkEvents w ++ (e.run_commands w).2 ++ (e.run_configs w).2) := by
  simp [SetupEntry.run, h, hf, hc]

/-- Unfolding of SetupEntry::run when the guard is not satisfied and no
config list is present. -/
theorem entry_run_guard_false_noconfigs (e : SetupEntry) (w : World)
    (h : e.guardSatisfied w = false) (hc : e.configs = none) :
    e.run w = ((e.run_commands w).1, e.checkEvents w ++ (e.run_commands w).2) := by
  simp [SetupEntry.run, h, hc]

/-! ## Pruning: clear_commands is an order-preserving filter -/

theorem commandsToRemoveFrom_shift (host : DistributionType) (cmds : List CommandStruct) :
    ∀ k, commandsToRemoveFrom host (k + 1) cmds
      = (commandsToRemoveFrom host k cmds).map (fun i => i + 1) := by
  induction cmds with
  | nil => intro k; rfl
  | cons c rest ih =>
    intro k
    by_cases h : c.should_skip host <;> simp [commandsToRemoveFrom, h, ih (k + 1)]

theorem foldr_erase_shift (idxs : List Nat) (c : CommandStruct) (l : List CommandStruct) :
    (idxs.map (fun i => i + 1)).foldr (fun i acc => remove_command acc i) (c :: l)
      = c :: idxs.foldr (fun i acc => remove_command acc i) l := by
  induction idxs with
  | nil => rfl
  | cons i t ih =>
    rw [List.map_cons, List.foldr_cons, ih]
    simp [remove_command, List.eraseIdx]

theorem clear_commands_eq_filter (cmds : List CommandStruct) (host : DistributionType) :
    clear_commands cmds host = cmds.filter (fun c => !(c.should_skip host)) := by
  unfold clear_commands commandsToRemove
  rw [List.foldl_reverse]
  induction cmds with
  | nil => rfl
  | cons c rest ih =>
    by_cases h : c.should_skip host
    · have hrem : commandsToRemoveFrom host 0 (c :: rest)
          = 0 :: (commandsToRemoveFrom host 0 rest).map (fun i => i + 1) := by
        simp [commandsToRemoveFrom, h, commandsToRemoveFrom_shift host rest 0]
      rw [hrem, List.foldr_cons, foldr_erase_shift, ih]
      simp [remove_command, List.eraseIdx, List.filter_cons, h]
    · have hrem : commandsToRemoveFrom host 0 (c :: rest)
          = (commandsToRemoveFrom host 0 rest).map (fun i => i + 1) := by
        simp [commandsToRemoveFrom, h, commandsToRemoveFrom_shift host rest 0]
      rw [hrem, foldr_erase_shift, ih]
      simp [List.filter_cons, h]

/-! ## Entry-level status and trace facts -/

theorem entry_run_ne_running (e : SetupEntry) (w : World) :
    (e.run w).1 ≠ Status.Running := by
  by_cases h : e.guardSatisfied w
  · by_cases hc : e.configs.isSome
    · rw [entry_run_guard_true_configs e w h hc]
      rcases run_configs_status_cases e w with h2 | h2 <;> simp [h2]
    · rw [entry_run_guard_true_noconfigs e w h (Option.not_isSome_iff_eq_none.mp hc)]
      simp
  · have hfalse : e.guardSatisfied w = false := by simpa using h
    by_cases hf : (e.run_commands w).1 = Status.Failure
    · rw [entry_run_guard_false_cmdfail e w hfalse hf]
      simp
    · by_cases hc : e.configs.isSome
      · rw [entry_run_guard_false_cmdok_configs e w hfalse hf hc]
        rcases run_configs_status_cases e w with h2 | h2 <;> simp [h2]
      · rw [entry_run_guard_false_noconfigs e w hfalse (Option.not_isSome_iff_eq_none.mp hc)]
        rcases run_commands_status_cases e w with h2 | h2 <;> simp [h2]

theorem entry_setup_ne_running (e : SetupEntry) (w : World) :
    (e.setup w).1 ≠ Status.Running := by
  simp only [SetupEntry.setup]
  split
  · split
    · simp
    · split
      · simp
      · simpa using entry_run_ne_running _ w
  · simpa using entry_run_ne_running _ w

theorem entry_run_no_precondition (e : SetupEntry) (w : World) :
    ∀ ev ∈ (e.run w).2, ev.isPrecondition = false := by
  have hchk := checkEvents_no_other_events e w
  have hcmd := run_commands_no_other_events e w
  have hcfg := run_configs_no_other_events e w
  by_cases h : e.guardSatisfied w
  · by_cases hc : e.configs.isSome
    · rw [entry_run_guard_true_configs e w h hc]
      intro ev hev
      rcases List.mem_append.mp hev with hev | hev
      · exact (hchk ev hev).2.2
      · exact (hcfg ev hev).2
    · rw [entry_run_guard_true_noconfigs e w h (Option.not_isSome_iff_eq_none.mp hc)]
      intro ev hev
      exact (hchk ev hev).2.2
  · have hfalse : e.guardSatisfied w = false := by simpa using h
    by_cases hf : (e.run_commands w).1 = Status.Failure
    · rw [entry_run_guard_false_cmdfail e w hfalse hf]
      intro ev hev
      rcases List.mem_append.mp hev with hev | hev
      · exact (hchk ev hev).2.2
      · exact (hcmd ev hev).2.2
    · by_cases hc : e.configs.isSome
      · rw [entry_run_guard_false_cmdok_configs e w hfalse hf hc]
        intro ev hev
        rcases List.mem_append.mp hev with hev | hev
        · rcases List.mem_append.mp hev with hev | hev
          · exact (hchk ev hev).2.2
          · exact (hcmd ev hev).2.2
        · exact (hcfg ev hev).2
      · rw [entry_run_guard_false_noconfigs e w hfalse (Option.not_isSome_iff_eq_none.mp hc)]
        intro ev hev
        rcases List.mem_append.mp hev with hev | hev
        · exact (hchk ev hev).2.2
        · exact (hcmd ev hev).2.2

/-! ## Claims -/

/-- Claim C1, counterexample: an entry whose own idempotency check is
satisfied still runs its child Configuration Units — here apply() is invoked
and the entry rests at Failure, not Success/Passed. -/
theorem c1_counterexample :
    SetupEntry.guardSatisfied sampleEntryGuardedCfg sampleWorldGuardOk = true ∧
    (SetupEntry.run sampleEntryGuardedCfg sampleWorldGuardOk).1 = Status.Failure ∧
    Event.applyEnter "cfgcmd" ∈ (SetupEntry.run sampleEntryGuardedCfg sampleWorldGuardOk).2 := by
  decide

/-- Claim C1 as amended: when the entry's own idempotency check is satisfied,
no child Command Unit's run() is invoked and, with no config list, the entry
rests at Success; child Configuration Units, when present, still run and
their aggregate becomes the entry's resting status. -/
theorem c1_theorem (e : SetupEntry) (w : World) (h : e.guardSatisfied w = true) :
    (∀ ev ∈ (e.run w).2, ev.isRunEnter = false) ∧
    (e.run w).1 = (if e.configs.isSome then (e.run_configs w).1 else Status.Success) := by
  by_cases hc : e.configs.isSome
  · rw [entry_run_guard_true_configs e w h hc]
    constructor
    · intro ev hev
      rcases List.mem_append.mp hev with hev | hev
      · exact (checkEvents_no_other_events e w ev hev).1
      · exact (run_configs_no_other_events e w ev hev).1
    · simp [hc]
  · rw [entry_run_guard_true_noconfigs e w h (Option.not_isSome_iff_eq_none.mp hc)]
    constructor
    · intro ev hev
      exact (checkEvents_no_other_events e w ev hev).1
    · simp [hc]

theorem c1_witness :
    SetupEntry.guardSatisfied sampleEntryGuardedCfg sampleWorldGuardOk = true ∧
    ((∀ ev ∈ (SetupEntry.run sampleEntryGuardedCfg sampleWorldGuardOk).2,
        ev.isRunEnter = false) ∧
     (SetupEntry.run sampleEntryGuardedCfg sampleWorldGuardOk).1 =
       (if sampleEntryGuardedCfg.configs.isSome then
          (SetupEntry.run_configs sampleEntryGuardedCfg sampleWorldGuardOk).1
        else Status.Success)) :=
  ⟨by decide, c1_theorem sampleEntryGuardedCfg sampleWorldGuardOk (by decide)⟩

/-- Claim C2, counterexample: execute() does not perform the full three-phase
lifecycle — on a registry with one entry carrying a mismatching command and a
working-directory precondition, the observable trace differs from the
lifecycle trace: the pruned-away command is still invoked and the working
directory is never created. -/
theorem c2_counterexample :
    SetupRegistry.execute sampleRegistry sampleWorldArch ≠
      SetupRegistry.executeLifecycle sampleRegistry sampleWorldArch ∧
    Event.runEnter "cmd-a" ∈ SetupRegistry.execute sampleRegistry sampleWorldArch ∧
    Event.createDir "wd" ∉ SetupRegistry.execute sampleRegistry sampleWorldArch := by
  decide

/-- Claim C2 as amended: execute() calls each entry's run() — guard, command
and config phases only — in list order, sequentially; the precondition phase
(directory creation, env-var prompting) never happens during execute(), and
no registry-level aggregate status is produced (the trace is the whole
observable result). -/
theorem c2_theorem (r : SetupRegistry) (w : World) :
    r.execute w = (r.entries.map (fun e => (e.run w).2)).flatten ∧
    ∀ ev ∈ r.execute w, ev.isPrecondition = false := by
  refine ⟨rfl, ?_⟩
  intro ev hev
  unfold SetupRegistry.execute at hev
  rw [List.mem_flatten] at hev
  rcases hev with ⟨l, hl, hev⟩
  rw [List.mem_map] at hl
  rcases hl with ⟨e, _, rfl⟩
  exact entry_run_no_precondition e w ev hev

/-- Claim C3: with the guard unsatisfied, the command phase invokes every
Command Unit's run() in list order with no short-circuit, aggregates Failure
exactly when some child failed (else Success), and the entry's status flows
from this phase (into the config phase only when it did not fail). -/
theorem c3_theorem (e : SetupEntry) (w : World) (h : e.guardSatisfied w = false) :
    (e.run_commands w).2.filter Event.isRunEnter
        = e.commands.map (fun c => Event.runEnter c.command) ∧
    (e.run_commands w).1 = (if e.commands.any (fun c => (c.run w).1 == Status.Failure)
        then Status.Failure else Status.Success) ∧
    (e.run w).1 = (if e.configs.isSome ∧ (e.run_commands w).1 ≠ Status.Failure
        then (e.run_configs w).1 else (e.run_commands w).1) := by
  refine ⟨run_commands_filter_runEnter e w, run_commands_status e w, ?_⟩
  by_cases hf : (e.run_commands w).1 = Status.Failure
  · rw [entry_run_guard_false_cmdfail e w h hf]
    simp [hf]
  · by_cases hc : e.configs.isSome
    · rw [entry_run_guard_false_cmdok_configs e w h hf hc]
      simp [hf, hc]
    · rw [entry_run_guard_false_noconfigs e w h (Option.not_isSome_iff_eq_none.mp hc)]
      simp [hf, hc]

theorem c3_witness :
    SetupEntry.guardSatisfied sampleFailEntry sampleWorldArch = false ∧
    ((SetupEntry.run_commands sampleFailEntry sampleWorldArch).2.filter Event.isRunEnter
        = sampleFailEntry.commands.map (fun c => Event.runEnter c.command) ∧
     (SetupEntry.run_commands sampleFailEntry sampleWorldArch).1 =
       (if sampleFailEntry.commands.any
            (fun c => (c.run sampleWorldArch).1 == Status.Failure)
        then Status.Failure else Status.Success) ∧
     (SetupEntry.run sampleFailEntry sampleWorldArch).1 =
       (if sampleFailEntry.configs.isSome ∧
            (SetupEntry.run_commands sampleFailEntry sampleWorldArch).1 ≠ Status.Failure
        then (SetupEntry.run_configs sampleFailEntry sampleWorldArch).1
        else (SetupEntry.run_commands sampleFailEntry sampleWorldArch).1)) :=
  ⟨by decide, c3_theorem sampleFailEntry sampleWorldArch (by decide)⟩

/-- Claim C4: when the command phase produced Failure, the config phase is
not entered — no Configuration Unit's apply() is invoked — and the entry
rests at Failure. -/
theorem c4_theorem (e : SetupEntry) (w : World) (h1 : e.guardSatisfied w = false)
    (h2 : (e.run_commands w).1 = Status.Failure) :
    (e.run w).1 = Status.Failure ∧ ∀ ev ∈ (e.run w).2, ev.isApplyEnter = false := by
  rw [entry_run_guard_false_cmdfail e w h1 h2]
  refine ⟨rfl, ?_⟩
  intro ev hev
  rcases List.mem_append.mp hev with hev | hev
  · exact (checkEvents_no_other_events e w ev hev).2.1
  · exact (run_commands_no_other_events e w ev hev).1

theorem c4_witness :
    (SetupEntry.guardSatisfied sampleFailCfgEntry sampleWorldArch = false ∧
     (SetupEntry.run_commands sampleFailCfgEntry sampleWorldArch).1 = Status.Failure) ∧
    ((SetupEntry.run sampleFailCfgEntry sampleWorldArch).1 = Status.Failure ∧
     ∀ ev ∈ (SetupEntry.run sampleFailCfgEntry sampleWorldArch).2,
       ev.isApplyEnter = false) :=
  ⟨⟨by decide, by decide⟩,
   c4_theorem sampleFailCfgEntry sampleWorldArch (by decide) (by decide)⟩

/-- Claim C5: a Command Unit with an idempotency check whose probe exits 0
with non-empty stdout rests at Passed, and its payload command line is never
executed — the only spawned process is the sh probe itself. -/
theorem c5_theorem (cc : CheckedCommand) (w : World) (h : cc.probeSatisfied w = true) :
    cc.run w = (Status.Passed, [Event.captured "sh" cc.check]) ∧
    Event.runEnter cc.base.command ∉ (cc.run w).2 := by
  cases hcap : w.capture "sh" cc.check with
  | none => simp [CheckedCommand.probeSatisfied, hcap] at h
  | some o =>
    simp only [CheckedCommand.probeSatisfied, hcap] at h
    have hrun : cc.run w = (Status.Passed, [Event.captured "sh" cc.check]) := by
      simp [CheckedCommand.run, validate_command, hcap, h]
    rw [hrun]
    exact ⟨rfl, by simp⟩

theorem c5_witness :
    CheckedCommand.probeSatisfied sampleCheckedCommand sampleWorldGuardOk = true ∧
    (CheckedCommand.run sampleCheckedCommand sampleWorldGuardOk =
       (Status.Passed, [Event.captured "sh" sampleCheckedCommand.check]) ∧
     Event.runEnter sampleCheckedCommand.base.command ∉
       (CheckedCommand.run sampleCheckedCommand sampleWorldGuardOk).2) :=
  ⟨by decide, c5_theorem sampleCheckedCommand sampleWorldGuardOk (by decide)⟩

/-- Claim C6: a Command Unit whose distribution restriction does not match
the host rests at Skipped from run(), and the Shell Invoker is never called —
the trace holds only the run() entry marker. -/
theorem c6_theorem (c : CommandStruct) (w : World) (d : DistributionType)
    (h1 : c.distribution = some d) (h2 : d ≠ w.host) :
    c.run w = (Status.Skipped, [Event.runEnter c.command]) ∧
    ∀ ev ∈ (c.run w).2, ev.isInvokerCall = false := by
  have hskip : c.should_skip w.host = true := by
    simp [CommandStruct.should_skip, h1, h2]
  have hrun : c.run w = (Status.Skipped, [Event.runEnter c.command]) := by
    simp [CommandStruct.run, CommandStruct.execute_command, hskip]
  refine ⟨hrun, ?_⟩
  rw [hrun]
  intro ev hev
  simp at hev
  subst hev
  rfl

theorem c6_witness :
    (sampleUbuntuCommand.distribution = some DistributionType.Ubuntu ∧
     DistributionType.Ubuntu ≠ sampleWorldArch.host) ∧
    (CommandStruct.run sampleUbuntuCommand sampleWorldArch =
       (Status.Skipped, [Event.runEnter sampleUbuntuCommand.command]) ∧
     ∀ ev ∈ (CommandStruct.run sampleUbuntuCommand sampleWorldArch).2,
       ev.isInvokerCall = false) :=
  ⟨⟨by decide, by decide⟩,
   c6_theorem sampleUbuntuCommand sampleWorldArch DistributionType.Ubuntu
     (by decide) (by decide)⟩

/-- Claim C7, counterexample: a unit carrying the restriction Unknown on an
Unknown host is not skipped — Unknown equals itself under the derived
equality, so the guard lets the unit run. -/
theorem c7_counterexample :
    (CommandStruct.mk "cmd" none (some DistributionType.Unknown)).distribution.isSome
      = true ∧
    CommandStruct.should_skip (CommandStruct.mk "cmd" none (some DistributionType.Unknown))
      DistributionType.Unknown = false := by
  decide

/-- Claim C7 as amended: a host of Unknown distribution skips every unit
restricted to a named distribution (Ubuntu or ArchLinux); only the degenerate
restriction Unknown matches an Unknown host. -/
theorem c7_theorem (c : CommandStruct)
    (h : c.distribution = some DistributionType.Ubuntu ∨
         c.distribution = some DistributionType.ArchLinux) :
    c.should_skip DistributionType.Unknown = true := by
  rcases h with h | h <;> simp [CommandStruct.should_skip, h]

theorem c7_witness :
    (sampleUbuntuCommand.distribution = some DistributionType.Ubuntu ∨
     sampleUbuntuCommand.distribution = some DistributionType.ArchLinux) ∧
    sampleUbuntuCommand.should_skip DistributionType.Unknown = true :=
  ⟨Or.inl (by decide), c7_theorem sampleUbuntuCommand (Or.inl (by decide))⟩

/-- Claim C8: the pruning phase rewrites the command list to exactly the
order-preserving filter of the commands the Distribution Guard keeps —
nothing else is removed, nothing reordered, nothing added. -/
theorem c8_theorem (cmds : List CommandStruct) (host : DistributionType) :
    clear_commands cmds host = cmds.filter (fun c => !(c.should_skip host)) :=
  clear_commands_eq_filter cmds host

/-- Claim C9: no lifecycle call — Command Unit run(), Configuration Unit
apply(), Setup Entry run() or setup() — ever returns the transient status
Running; each rests at exactly one terminal Status. -/
theorem c9_theorem (w : World) :
    (∀ c : CommandStruct, (c.run w).1 ≠ Status.Running) ∧
    (∀ ci : ConfigItem, (ci.apply w).1 ≠ Status.Running) ∧
    (∀ e : SetupEntry, (e.run w).1 ≠ Status.Running ∧ (e.setup w).1 ≠ Status.Running) := by
  refine ⟨fun c => ?_, fun ci => apply_status_ne_running ci w,
    fun e => ⟨entry_run_ne_running e w, entry_setup_ne_running e w⟩⟩
  rcases run_status_cases c w with h | h | h <;> simp [h]

/-- Claim C10: when a Configuration Unit's check probe itself fails with an
io error, apply() rests at Failure and the wrapped unit's interactive
execution is never invoked — no attach attempt and no interact entry occur. -/
theorem c10_theorem (ci : ConfigItem) (w : World) (chk : String)
    (h1 : ci.check = some chk) (h2 : w.capture "sh" chk = none) :
    ci.apply w = (Status.Failure,
      [Event.applyEnter ci.command.command, Event.captured "sh" chk]) ∧
    ∀ ev ∈ (ci.apply w).2, ev.isInteractEnter = false ∧ ev.isAttachedCall = false := by
  have happly : ci.apply w = (Status.Failure,
      [Event.applyEnter ci.command.command, Event.captured "sh" chk]) := by
    simp [ConfigItem.apply, h1, validate_command, h2]
  refine ⟨happly, ?_⟩
  rw [happly]
  intro ev hev
  simp at hev
  rcases hev with hev | hev <;> subst hev <;> exact ⟨rfl, rfl⟩

theorem c10_witness :
    (sampleCfgProbeErr.check = some "nochk" ∧
     sampleWorldArch.capture "sh" "nochk" = none) ∧
    (ConfigItem.apply sampleCfgProbeErr sampleWorldArch =
       (Status.Failure, [Event.applyEnter sampleCfgProbeErr.command.command,
         Event.captured "sh" "nochk"]) ∧
     ∀ ev ∈ (ConfigItem.apply sampleCfgProbeErr sampleWorldArch).2,
       ev.isInteractEnter = false ∧ ev.isAttachedCall = false) :=
  ⟨⟨by decide, by decide⟩,
   c10_theorem sampleCfgProbeErr sampleWorldArch "nochk" (by decide) (by decide)⟩

end LinuxSetup
